import Mathlib

set_option autoImplicit false

deriving instance DecidableEq for Except

namespace CoapDtls

/-- Error kinds of std::io::ErrorKind that dtls_client.rs constructs or matches
on: WouldBlock, TimedOut, InvalidInput, NotFound, Other. -/
inductive ErrorKind where
  | wouldBlock
  | timedOut
  | invalidInput
  | notFound
  | other
deriving DecidableEq

/-- Message types of the protocol header (spec section 3: confirmable,
non-confirmable, acknowledgement, reset). -/
inductive MessageType where
  | confirmable
  | nonConfirmable
  | acknowledgement
  | reset
deriving DecidableEq

/-- Header of a protocol PDU: type, 16-bit message id, code (spec section 3). -/
structure Header where
  messageType : MessageType
  messageId : Nat
  code : Nat
deriving DecidableEq

/-- Protocol PDU (spec section 3): header, token, options, payload. Options are
modelled as pairs of an option number and its value bytes. -/
structure Packet where
  header : Header
  token : List Nat
  options : List (Nat × List Nat)
  payload : List Nat
deriving DecidableEq

/-- Modelled from the spec: Packet::new of the message module, which is not
under src/. A freshly constructed PDU carries no options and no payload (spec
sections 3 and 4.5: the synthesised acknowledgement, built from a fresh packet
by setting only type, message-id and token, has no options and no payload). -/
def Packet.new : Packet :=
  { header := { messageType := MessageType.confirmable, messageId := 0, code := 0 }
    token := []
    options := []
    payload := [] }

/-- Derived status classification of a response (spec section 3); the observe
path only ever compares it against Content. -/
inductive Status where
  | content
  | created
  | changed
  | deleted
  | badRequest
  | notFound404
  | internalServerError
deriving DecidableEq

/-- Response envelope as built by DTLSCoAPClient::receive: a received packet
wrapped as CoAPResponse with message field. -/
structure CoAPResponseModel where
  message : Packet
deriving DecidableEq

/-- gen_message_id from dtls_client.rs: increments the 16-bit counter (with
wrap-around) and returns the new value. The result is the pair of the updated
counter and the returned id. -/
def gen_message_id (m : Nat) : Nat × Nat :=
  let m' := (m + 1) % 65536
  (m', m')

/-- Returned values of n successive gen_message_id calls threading the counter,
starting from counter value m. -/
def genSeq : Nat → Nat → List Nat
  | 0, _ => []
  | n + 1, m =>
    let r := gen_message_id m
    r.2 :: genSeq n r.1

/-- Acknowledgement synthesis in the observe worker (dtls_client.rs lines
139-144): a fresh packet whose type, message-id and token are set from the
derived response envelope; options and payload are never touched. -/
def synthAck (response : Packet) : Packet :=
  { Packet.new with
    header := { Packet.new.header with
      messageType := response.header.messageType
      messageId := response.header.messageId }
    token := response.token }

/-- Modelled from the spec: CoAPResponse::new of the message module, which is
not under src/, reached through CoAPRequest::from_packet as the response field.
Per the spec (section 4.5) a response envelope is derivable exactly when the
incoming packet's type requires acknowledgement, i.e. for a confirmable
notification, and the acknowledgement built from the envelope carries the
incoming message's type, message-id and token; the envelope therefore echoes
those header fields of the incoming packet. -/
def deriveResponse (incoming : Packet) : Option Packet :=
  match incoming.header.messageType with
  | MessageType.confirmable =>
    some { Packet.new with
      header := { Packet.new.header with
        messageType := incoming.header.messageType
        messageId := incoming.header.messageId }
      token := incoming.token }
  | _ => none

/-- Observe-related state of a DTLSCoAPClient session: the observe_sender and
observe_thread handles (each either present or None). -/
structure ClientState where
  observeSender : Option Unit
  observeThread : Option Unit
deriving DecidableEq

/-- Outcome of a fallible operation that may also panic (a Rust unwrap on an
error value aborts the thread instead of returning). -/
inductive Outcome (α : Type) where
  | ok (a : α)
  | err (e : ErrorKind)
  | panic
deriving DecidableEq

/-- Environment of one observe call: the results of the I/O operations it
performs, in program order. A None entry means the operation succeeded; for
receiveResult a successful receive carries the derived status of the
registration response. -/
structure ObserveEnv where
  sendRegister : Option ErrorKind
  setTimeout : Option ErrorKind
  receiveResult : Except ErrorKind Status
  cloneOk : Bool
  connectorResult : Option ErrorKind
  connectOk : Bool
deriving DecidableEq

/-- Result of one observe call: the returned value, the session's observe
handles afterwards, whether a worker thread was spawned, and whether a
Terminate message was sent to a previously stored sender (the source never
does so inside observe). -/
structure ObserveResult where
  result : Outcome Unit
  state : ClientState
  spawned : Bool
  sentTerminate : Bool
deriving DecidableEq

/-- DTLSCoAPClient::observe (dtls_client.rs lines 96-178) as a function of the
prior observe handles and the environment: send the registration (propagate
errors), set the receive timeout (propagate), receive the registration
response (propagate), fail with NotFound if its status is not Content, fail
with Other if the socket clone fails, propagate a connector error, panic if the
DTLS connect unwrap fails, otherwise spawn the worker and store fresh handles.
No branch consults or signals the previously stored handles. -/
def observe (s : ClientState) (env : ObserveEnv) : ObserveResult :=
  match env.sendRegister with
  | some e => ⟨Outcome.err e, s, false, false⟩
  | none =>
    match env.setTimeout with
    | some e => ⟨Outcome.err e, s, false, false⟩
    | none =>
      match env.receiveResult with
      | Except.error e => ⟨Outcome.err e, s, false, false⟩
      | Except.ok status =>
        if status ≠ Status.content then
          ⟨Outcome.err ErrorKind.notFound, s, false, false⟩
        else if env.cloneOk = false then
          ⟨Outcome.err ErrorKind.other, s, false, false⟩
        else
          match env.connectorResult with
          | some e => ⟨Outcome.err e, s, false, false⟩
          | none =>
            if env.connectOk = false then
              ⟨Outcome.panic, s, false, false⟩
            else
              ⟨Outcome.ok (), ⟨some (), some ()⟩, true, false⟩

/-- DTLSCoAPClient::unobserve (dtls_client.rs lines 181-190): take the sender;
if it was present, send Terminate and join the taken thread handle, leaving
both handles None; if it was absent, the take leaves it None and the thread
handle is not touched. -/
def unobserve (s : ClientState) : ClientState :=
  match s.observeSender with
  | some _ => ⟨none, none⟩
  | none => ⟨none, s.observeThread⟩

/-- Drop for DTLSCoAPClient (dtls_client.rs lines 272-276): drop invokes
unobserve. -/
def dropClient (s : ClientState) : ClientState :=
  unobserve s

/-- Terminate branch of the observe worker (dtls_client.rs lines 161-169), as a
function of the deregister send result and the drain read result: both results
are unwrapped, so an error in either panics the worker; only when both succeed
does the loop break and the worker exit cleanly. -/
def terminateBranch (sendResult : Option ErrorKind)
    (drainResult : Except ErrorKind Packet) : Outcome Unit :=
  match sendResult with
  | some _ => Outcome.panic
  | none =>
    match drainResult with
    | Except.error _ => Outcome.panic
    | Except.ok _ => Outcome.ok ()

/-- Observe option byte values, from the spec (section 6): the observe option
carries a single byte, 0 for register and 1 for deregister (the ObserveOption
enum lives in the message module, which is not under src/). -/
def registerByte : Nat := 0

/-- Deregister marker byte of the observe option (spec section 6). -/
def deregisterByte : Nat := 1

/-- Request envelope as built in the observe path: message id, observe option
value if set, and the request path. -/
structure CoAPRequestModel where
  messageId : Nat
  observeValue : Option (List Nat)
  path : String
deriving DecidableEq

/-- Registration request construction in observe (dtls_client.rs lines
102-106): the message-id counter is a local variable initialised to 0, then
gen_message_id supplies the registration message id. Returns the request and
the counter value the worker closure captures. -/
def observeRegistration (path : String) : CoAPRequestModel × Nat :=
  let m0 : Nat := 0
  let r := gen_message_id m0
  (⟨r.2, some [registerByte], path⟩, r.1)

/-- Deregistration request construction in the worker's Terminate branch
(dtls_client.rs lines 162-165): gen_message_id on the captured counter supplies
the deregister message id. -/
def observeDeregistration (path : String) (m : Nat) : CoAPRequestModel × Nat :=
  let r := gen_message_id m
  (⟨r.2, some [deregisterByte], path⟩, r.1)

/-- Characters allowed after the first character of a URL scheme. -/
def isSchemeRest (c : Char) : Bool :=
  c.isAlpha || c.isDigit || c == '+' || c == '-' || c == '.'

/-- Consume scheme characters up to the terminating colon; fails when the colon
is missing or an invalid character appears (the string then has no absolute
scheme and parsing a relative reference without a base fails). -/
def takeScheme : List Char → List Char → Option (List Char × List Char)
  | _, [] => none
  | acc, c :: rest =>
    if c == ':' then some (acc.reverse, rest)
    else if isSchemeRest c then takeScheme (c :: acc) rest
    else none

/-- Split an absolute URL into its scheme and the remainder after the colon;
the scheme must start with an ASCII letter. -/
def splitScheme : List Char → Option (List Char × List Char)
  | [] => none
  | c :: rest => if c.isAlpha then takeScheme [c] rest else none

/-- Characters that terminate the authority component. -/
def isAuthorityEnd (c : Char) : Bool :=
  c == '/' || c == '?' || c == '#'

/-- Split the part after the double slash into the authority and the rest
(starting with the path, query or fragment delimiter). -/
def splitAuthority : List Char → List Char × List Char
  | [] => ([], [])
  | c :: rest =>
    if isAuthorityEnd c then ([], c :: rest)
    else
      let r := splitAuthority rest
      (c :: r.1, r.2)

/-- Path component: characters up to a query or fragment delimiter. -/
def takePath : List Char → List Char
  | [] => []
  | c :: rest => if c == '?' || c == '#' then [] else c :: takePath rest

/-- Decimal digits to a natural number; fails on a non-digit. -/
def digitsToNat : List Char → Nat → Option Nat
  | [], acc => some acc
  | c :: rest, acc =>
    if c.isDigit then digitsToNat rest (acc * 10 + (c.toNat - 48))
    else none

/-- Port component after the colon: empty means no port; otherwise all
characters must be digits. The numeric value is not yet range-checked here. -/
def parsePort (cs : List Char) : Option (Option Nat) :=
  match cs with
  | [] => some none
  | _ =>
    match digitsToNat cs 0 with
    | some v => some (some v)
    | none => none

/-- Split at the first closing bracket of an IPv6 literal. -/
def splitAtCloseBracket : List Char → Option (List Char × List Char)
  | [] => none
  | c :: rest =>
    if c == ']' then some ([], rest)
    else
      match splitAtCloseBracket rest with
      | some (pre, post) => some (c :: pre, post)
      | none => none

/-- Split at the first colon, when present. -/
def splitAtColon : List Char → Option (List Char × List Char)
  | [] => none
  | c :: rest =>
    if c == ':' then some ([], rest)
    else
      match splitAtColon rest with
      | some (pre, post) => some (c :: pre, post)
      | none => none

/-- Characters of an IPv6 literal: hexadecimal digits, colon, dot. -/
def isIpv6Char (c : Char) : Bool :=
  c.isDigit || c == ':' || c == '.' ||
    (decide (97 ≤ c.toNat) && decide (c.toNat ≤ 102)) ||
    (decide (65 ≤ c.toNat) && decide (c.toNat ≤ 70))

/-- Authority parsing: either an empty host, a bracketed IPv6 literal with an
optional port, or a reg-name or IPv4 host with an optional port. A colon with
an empty host in front of it is a host-missing failure; userinfo is outside the
modelled subset and treated as a failure. The host string keeps the brackets of
an IPv6 literal, as the url crate's host_str does. -/
def parseAuthority (auth : List Char) : Option (Option (List Char) × Option Nat) :=
  if auth.contains '@' then none
  else
    match auth with
    | [] => some (some [], none)
    | '[' :: rest =>
      match splitAtCloseBracket rest with
      | none => none
      | some (inner, after) =>
        if inner.isEmpty || !(inner.all isIpv6Char) then none
        else
          match after with
          | [] => some (some ('[' :: (inner ++ [']'])), none)
          | ':' :: ps =>
            match parsePort ps with
            | some p => some (some ('[' :: (inner ++ [']'])), p)
            | none => none
          | _ => none
    | _ =>
      match splitAtColon auth with
      | none => some (some auth, none)
      | some (h, ps) =>
        if h.isEmpty then none
        else
          match parsePort ps with
          | some p => some (some h, p)
          | none => none

/-- Parsed URL as seen through the url crate accessors that parse_coap_url
uses: host_str (None for a cannot-be-a-base URL, possibly the empty string),
port, path. -/
structure UrlRaw where
  host : Option (List Char)
  port : Option Nat
  path : List Char
deriving DecidableEq

/-- Modelled from the spec: URL parsing is an external collaborator (the url
crate); this is its behaviour on the coap URL surface of spec section 6, before
the 16-bit range check on the port: scheme, then with a double slash an
authority of host and optional port, then the path; without a double slash a
cannot-be-a-base URL whose host accessor yields None. -/
def urlParseRaw (s : String) : Option UrlRaw :=
  match splitScheme s.data with
  | none => none
  | some (_, rest) =>
    match rest with
    | '/' :: '/' :: rest2 =>
      let ar := splitAuthority rest2
      match parseAuthority ar.1 with
      | none => none
      | some (h, p) => some ⟨h, p, takePath ar.2⟩
    | _ => some ⟨none, none, rest⟩

/-- Modelled from the spec: full url-crate parse, which fails when the port
value does not fit in 16 bits. -/
def urlParse (s : String) : Option UrlRaw :=
  match urlParseRaw s with
  | none => none
  | some u =>
    match u.port with
    | some p => if p < 65536 then some u else none
    | none => some u

/-- A URL whose port component parses to a value outside the 16-bit range. -/
def hasPortOutOfRange (s : String) : Prop :=
  ∃ u : UrlRaw, urlParseRaw s = some u ∧ ∃ p : Nat, u.port = some p ∧ 65536 ≤ p

/-- Bracket stripping of parse_coap_url (dtls_client.rs lines 251-254): the
anchored lazy regex replaces a host of the shape open-bracket, anything,
close-bracket by its interior, i.e. it strips the first and last character
exactly when the host starts with an open and ends with a close bracket. -/
def stripBrackets (h : List Char) : List Char :=
  if h.head? == some '[' && h.getLast? == some ']' then (h.drop 1).dropLast
  else h

/-- DTLSCoAPClient::parse_coap_url (dtls_client.rs lines 240-264): parse the
URL (InvalidInput on failure), reject a missing or empty host with
InvalidInput, strip brackets, default the port to 5683, return host, port and
path. -/
def parse_coap_url (url : String) : Except ErrorKind (List Char × Nat × List Char) :=
  match urlParse url with
  | none => Except.error ErrorKind.invalidInput
  | some u =>
    match u.host with
    | some [] => Except.error ErrorKind.invalidInput
    | some h => Except.ok (stripBrackets h, u.port.getD 5683, u.path)
    | none => Except.error ErrorKind.invalidInput

/-- DTLSCoAPClient::receive_from_socket (dtls_client.rs lines 226-238) as a
function of the packet decoder and the ssl_read result: every read error,
whatever its kind, is replaced by an InvalidInput packet error; a successful
read is decoded, a decode failure again yielding InvalidInput. -/
def receive_from_socket (fromBytes : List Nat → Option Packet)
    (readResult : Except ErrorKind (List Nat)) : Except ErrorKind Packet :=
  match readResult with
  | Except.error _ => Except.error ErrorKind.invalidInput
  | Except.ok buf =>
    match fromBytes buf with
    | some p => Except.ok p
    | none => Except.error ErrorKind.invalidInput

/-- DTLSCoAPClient::receive (dtls_client.rs lines 198-201): the packet from
receive_from_socket wrapped as a CoAPResponse. -/
def receive (fromBytes : List Nat → Option Packet)
    (readResult : Except ErrorKind (List Nat)) : Except ErrorKind CoAPResponseModel :=
  match receive_from_socket fromBytes readResult with
  | Except.ok p => Except.ok ⟨p⟩
  | Except.error e => Except.error e

/-- Environment of one get_with_timeout call: results of session construction,
send, set_receive_timeout, and the ssl_read on the receive path. -/
structure GetEnv where
  newResult : Option ErrorKind
  sendResult : Option ErrorKind
  setTimeoutResult : Option ErrorKind
  readResult : Except ErrorKind (List Nat)
deriving DecidableEq

/-- DTLSCoAPClient::get_with_timeout (dtls_client.rs lines 79-93): parse the
URL, construct the session, send the request, set the receive timeout, then
return the receive result unchanged (the final match forwards both the Ok and
the Err case as they are). -/
def get_with_timeout (fromBytes : List Nat → Option Packet) (url : String)
    (env : GetEnv) : Except ErrorKind CoAPResponseModel :=
  match parse_coap_url url with
  | Except.error e => Except.error e
  | Except.ok _ =>
    match env.newResult with
    | some e => Except.error e
    | none =>
      match env.sendResult with
      | some e => Except.error e
      | none =>
        match env.setTimeoutResult with
        | some e => Except.error e
        | none => receive fromBytes env.readResult

theorem genSeq_eq_range' (n : Nat) :
    ∀ m : Nat, m + n ≤ 65535 → genSeq n m = List.range' (m + 1) n := by
  induction n with
  | zero => intro m _; simp [genSeq]
  | succ n ih =>
    intro m h
    have h1 : (m + 1) % 65536 = m + 1 := Nat.mod_eq_of_lt (by omega)
    simp only [genSeq, gen_message_id, h1, List.range'_succ]
    exact congrArg _ (ih (m + 1) (by omega))

/-- C8: one call to the message-id generator updates the counter to
(m + 1) mod 2^16 and returns that value; consequently a run of up to 65535
successive calls starting from the fresh counter 0, as an observe session
performs, returns 1, 2, ..., n, a strictly increasing sequence (wrap-around
only occurs past 2^16 calls). -/
theorem gen_message_id_monotone :
    (∀ m : Nat, gen_message_id m = ((m + 1) % 65536, (m + 1) % 65536)) ∧
    (∀ n : Nat, n ≤ 65535 →
      genSeq n 0 = List.range' 1 n ∧ List.Pairwise (· < ·) (genSeq n 0)) := by
  constructor
  · intro m; rfl
  · intro n h
    have hr := genSeq_eq_range' n 0 (by omega)
    refine ⟨by simpa using hr, ?_⟩
    rw [hr]
    simpa using List.pairwise_lt_range' 1 n

theorem gen_message_id_monotone_witness :
    genSeq 3 0 = List.range' 1 3 ∧ List.Pairwise (· < ·) (genSeq 3 0) :=
  gen_message_id_monotone.2 3 (by decide)

/-- C10: the observe path initialises its message-id counter to 0 locally in
each call, so the registration request always carries message-id 1 and the
deregister request built from the captured counter always carries message-id 2,
for every path and independently of any other session activity. -/
theorem observe_message_ids (path : String) :
    (observeRegistration path).1.messageId = 1 ∧
    (observeDeregistration path (observeRegistration path).2).1.messageId = 2 :=
  ⟨rfl, rfl⟩

theorem observe_message_ids_witness :
    (observeRegistration "/temp").1.messageId = 1 ∧
    (observeDeregistration "/temp" (observeRegistration "/temp").2).1.messageId = 2 :=
  observe_message_ids "/temp"

/-- C2: for every incoming packet from which a response envelope is derivable,
the acknowledgement synthesised by the observe worker has the message type,
message-id and token of the incoming message and carries no options and no
payload. -/
theorem observe_ack_fidelity (p r : Packet) (h : deriveResponse p = some r) :
    (synthAck r).header.messageType = p.header.messageType ∧
    (synthAck r).header.messageId = p.header.messageId ∧
    (synthAck r).token = p.token ∧
    (synthAck r).options = [] ∧
    (synthAck r).payload = [] := by
  unfold deriveResponse at h
  split at h
  · injection h with h'
    subst h'
    exact ⟨rfl, rfl, rfl, rfl, rfl⟩
  · exact Option.noConfusion h

theorem observe_ack_fidelity_witness :
    (synthAck ⟨⟨MessageType.confirmable, 7, 0⟩, [1, 2], [], []⟩).header.messageType =
      (⟨⟨MessageType.confirmable, 7, 69⟩, [1, 2], [], [3]⟩ : Packet).header.messageType ∧
    (synthAck ⟨⟨MessageType.confirmable, 7, 0⟩, [1, 2], [], []⟩).header.messageId =
      (⟨⟨MessageType.confirmable, 7, 69⟩, [1, 2], [], [3]⟩ : Packet).header.messageId ∧
    (synthAck ⟨⟨MessageType.confirmable, 7, 0⟩, [1, 2], [], []⟩).token =
      (⟨⟨MessageType.confirmable, 7, 69⟩, [1, 2], [], [3]⟩ : Packet).token ∧
    (synthAck ⟨⟨MessageType.confirmable, 7, 0⟩, [1, 2], [], []⟩).options = [] ∧
    (synthAck ⟨⟨MessageType.confirmable, 7, 0⟩, [1, 2], [], []⟩).payload = [] :=
  observe_ack_fidelity ⟨⟨MessageType.confirmable, 7, 69⟩, [1, 2], [], [3]⟩
    ⟨⟨MessageType.confirmable, 7, 0⟩, [1, 2], [], []⟩ (by decide)

/-- C4: when the registration response is received and its derived status is
not Content, observe returns a NotFound error, spawns no worker, and leaves the
session's observe handles unchanged. -/
theorem observe_notFound (s : ClientState) (env : ObserveEnv) (st : Status)
    (hsend : env.sendRegister = none) (hto : env.setTimeout = none)
    (hrecv : env.receiveResult = Except.ok st) (hst : st ≠ Status.content) :
    observe s env = ⟨Outcome.err ErrorKind.notFound, s, false, false⟩ := by
  unfold observe
  rw [hsend, hto, hrecv]
  simp [hst]

theorem observe_notFound_witness :
    observe ⟨none, none⟩ ⟨none, none, Except.ok Status.notFound404, true, none, true⟩ =
      ⟨Outcome.err ErrorKind.notFound, ⟨none, none⟩, false, false⟩ :=
  observe_notFound ⟨none, none⟩ ⟨none, none, Except.ok Status.notFound404, true, none, true⟩
    Status.notFound404 rfl rfl rfl (by decide)

/-- C9 counterexample: with an observation already active (both handles set), a
second observe call whose environment succeeds is not rejected: it returns Ok
and spawns a second worker. -/
theorem observe_second_accepted :
    (observe ⟨some (), some ()⟩
        ⟨none, none, Except.ok Status.content, true, none, true⟩).result = Outcome.ok () ∧
    (observe ⟨some (), some ()⟩
        ⟨none, none, Except.ok Status.content, true, none, true⟩).spawned = true := by
  decide

/-- C9 amended: observe never consults the stored observe handles: its returned
value, whether it spawns a worker, and the fact that it never signals a
previously stored sender are independent of the prior handles, and on a fully
successful environment it returns Ok, spawns a worker and overwrites both
handles even when an observation is already active. -/
theorem observe_ignores_active_observation (s₁ s₂ : ClientState) (env : ObserveEnv) :
    ((observe s₁ env).result = (observe s₂ env).result ∧
     (observe s₁ env).spawned = (observe s₂ env).spawned ∧
     (observe s₁ env).sentTerminate = false) ∧
    (env.sendRegister = none → env.setTimeout = none →
      env.receiveResult = Except.ok Status.content → env.cloneOk = true →
      env.connectorResult = none → env.connectOk = true →
      observe s₁ env = ⟨Outcome.ok (), ⟨some (), some ()⟩, true, false⟩) := by
  rcases env with ⟨sr, stv, rr, co, cr, ck⟩
  constructor
  · rcases sr with _ | e₁ <;> rcases stv with _ | e₂ <;>
      rcases rr with e₃ | st <;> rcases co with _ | _ <;>
      rcases cr with _ | e₄ <;> rcases ck with _ | _ <;>
      first
        | (by_cases hst : st = Status.content <;> simp [observe, hst])
        | simp [observe]
  · intro h1 h2 h3 h4 h5 h6
    simp only at h1 h2 h3 h4 h5 h6
    subst h1; subst h2; subst h3; subst h4; subst h5; subst h6
    rfl

theorem observe_ignores_active_observation_witness :
    observe ⟨some (), some ()⟩ ⟨none, none, Except.ok Status.content, true, none, true⟩ =
      ⟨Outcome.ok (), ⟨some (), some ()⟩, true, false⟩ :=
  (observe_ignores_active_observation ⟨some (), some ()⟩ ⟨none, none⟩
    ⟨none, none, Except.ok Status.content, true, none, true⟩).2 rfl rfl rfl rfl rfl rfl

/-- C3 counterexample: an error returned by the deregister send makes the
terminate branch panic instead of exiting cleanly, so deregister-time errors
are not swallowed. -/
theorem terminate_branch_panics_on_send_error :
    terminateBranch (some ErrorKind.other) (Except.ok Packet.new) = Outcome.panic ∧
    (Outcome.panic : Outcome Unit) ≠ Outcome.ok () := by
  decide

/-- C3 amended: the terminate branch unwraps both the deregister send result
and the drain read result, so an error in either panics the worker; it exits
cleanly only when both succeed. -/
theorem terminate_branch_unwraps (e : ErrorKind) (p : Packet) :
    terminateBranch (some e) (Except.ok p) = Outcome.panic ∧
    terminateBranch (some e) (Except.error e) = Outcome.panic ∧
    terminateBranch none (Except.error e) = Outcome.panic ∧
    terminateBranch none (Except.ok p) = Outcome.ok () :=
  ⟨rfl, rfl, rfl, rfl⟩

/-- C5: unobserve clears the observe sender; when an observation was active it
clears both handles; when the sender is already absent it is a no-op on the
state; it is idempotent, and the unobserve invoked by drop after an unobserve
is likewise a no-op, so double teardown is safe. -/
theorem unobserve_idempotent (s : ClientState) :
    (unobserve s).observeSender = none ∧
    (s.observeSender.isSome = true → unobserve s = ⟨none, none⟩) ∧
    (s.observeSender = none → unobserve s = s) ∧
    unobserve (unobserve s) = unobserve s ∧
    dropClient (unobserve s) = unobserve s := by
  rcases s with ⟨os, ot⟩
  rcases os with _ | u <;> simp [unobserve, dropClient]

theorem unobserve_idempotent_witness :
    unobserve ⟨some (), some ()⟩ = ⟨none, none⟩ ∧
    unobserve ⟨none, none⟩ = ⟨none, none⟩ :=
  ⟨(unobserve_idempotent ⟨some (), some ()⟩).2.1 rfl,
   (unobserve_idempotent ⟨none, none⟩).2.2.1 rfl⟩

/-- C6: parse_coap_url accepts the six URLs of the acceptance set; the port
defaults to 5683 when omitted, and brackets around IPv6 literals are stripped
from the returned host. -/
theorem parse_coap_url_acceptance :
    parse_coap_url "coap://127.0.0.1" = Except.ok ("127.0.0.1".data, 5683, []) ∧
    parse_coap_url "coap://127.0.0.1:5683" = Except.ok ("127.0.0.1".data, 5683, []) ∧
    parse_coap_url "coap://[::1]" = Except.ok ("::1".data, 5683, []) ∧
    parse_coap_url "coap://[::1]:5683" = Except.ok ("::1".data, 5683, []) ∧
    parse_coap_url "coap://[bbbb::9329:f033:f558:7418]" =
      Except.ok ("bbbb::9329:f033:f558:7418".data, 5683, []) ∧
    parse_coap_url "coap://[bbbb::9329:f033:f558:7418]:5683" =
      Except.ok ("bbbb::9329:f033:f558:7418".data, 5683, []) :=
  ⟨by decide, by decide, by decide, by decide, by decide, by decide⟩

/-- C7: parse_coap_url rejects the four URLs of the rejection set with
InvalidInput, and in general fails with InvalidInput whenever the URL does not
parse, whenever its port component is outside the 16-bit range, and whenever
its host component is empty or missing. -/
theorem parse_coap_url_rejection :
    (parse_coap_url "coap://127.0.0.1:65536" = Except.error ErrorKind.invalidInput ∧
     parse_coap_url "coap://" = Except.error ErrorKind.invalidInput ∧
     parse_coap_url "coap://:5683" = Except.error ErrorKind.invalidInput ∧
     parse_coap_url "127.0.0.1" = Except.error ErrorKind.invalidInput) ∧
    (∀ s : String, urlParse s = none →
      parse_coap_url s = Except.error ErrorKind.invalidInput) ∧
    (∀ s : String, hasPortOutOfRange s →
      parse_coap_url s = Except.error ErrorKind.invalidInput) ∧
    (∀ s : String,
      (∃ u : UrlRaw, urlParse s = some u ∧ (u.host = some [] ∨ u.host = none)) →
      parse_coap_url s = Except.error ErrorKind.invalidInput) := by
  refine ⟨by decide, ?_, ?_, ?_⟩
  · intro s h
    unfold parse_coap_url
    rw [h]
  · rintro s ⟨u, hraw, p, hport, hge⟩
    have hlt : ¬ p < 65536 := by omega
    have hnone : urlParse s = none := by
      simp [urlParse, hraw, hport, hlt]
    unfold parse_coap_url
    rw [hnone]
  · rintro s ⟨⟨uh, up, upath⟩, hu, hh⟩
    rcases hh with h1 | h1 <;> simp only at h1 <;> subst h1 <;>
      simp [parse_coap_url, hu]

theorem parse_coap_url_rejection_witness :
    parse_coap_url "coap://:5683" = Except.error ErrorKind.invalidInput ∧
    parse_coap_url "coap://127.0.0.1:65536" = Except.error ErrorKind.invalidInput ∧
    parse_coap_url "coap://" = Except.error ErrorKind.invalidInput :=
  ⟨parse_coap_url_rejection.2.1 "coap://:5683" (by decide),
   parse_coap_url_rejection.2.2.1 "coap://127.0.0.1:65536"
     ⟨⟨some ("127.0.0.1".data), some 65536, []⟩, by decide, 65536, rfl, by decide⟩,
   parse_coap_url_rejection.2.2.2 "coap://" ⟨⟨some [], none, []⟩, by decide, Or.inl rfl⟩⟩

/-- C1: evaluating get_with_timeout at the failing input: a URL that parses, a
session that constructs, a successful send and timeout installation, and a
receive whose ssl_read surfaces the elapsed receive timer as a WouldBlock (or
TimedOut) error. The call returns an InvalidInput error, not a would-block or
timed-out one, because receive_from_socket replaces every read error kind by
InvalidInput. -/
theorem get_with_timeout_timeout_gives_invalidInput :
    get_with_timeout (fun _ => none) "coap://127.0.0.1:5683/Rust"
      ⟨none, none, none, Except.error ErrorKind.wouldBlock⟩ =
        Except.error ErrorKind.invalidInput ∧
    get_with_timeout (fun _ => none) "coap://127.0.0.1:5683/Rust"
      ⟨none, none, none, Except.error ErrorKind.timedOut⟩ =
        Except.error ErrorKind.invalidInput ∧
    ErrorKind.invalidInput ≠ ErrorKind.wouldBlock ∧
    ErrorKind.invalidInput ≠ ErrorKind.timedOut :=
  ⟨rfl, rfl, by decide, by decide⟩

end CoapDtls
